import Mathlib

/-!
Verification of the SystemOSC sampling-and-dissemination core.

This file gives a shallow embedding, in Lean 4, of the core of the
SystemOSC repository (`src/index.ts` and its companions): the data model
(`CPUStats`, `SendResult`), the snapshot collector (`collectCPUStats`),
the OSC UDP sink (`sendStats`), the monitor cycle driven by the React
effect (`monitor`), the configuration boundary (`INTERVAL_MS`), the
shutdown path (`shutdown`), and the timing of the `setInterval` schedule.
Host-facility queries (`systeminformation`), wall-clock reads and the
OSC library are modelled as explicit inputs: a possibly-failing
`HostResponse`, a `now` string, and an `OSCPort` whose individual send
calls may fail.  JavaScript numbers are modelled as rationals.
-/

namespace SystemOSC

/-- CPU hardware identity, as built by `collectCPUStats` from `si.cpu()`
(`model`/`cores`/`speed` in `src/index.ts`). -/
structure CPUInfo where
  model : String
  cores : Nat
  speed : ℚ
deriving DecidableEq

/-- Aggregate CPU usage percentages (`usage` in `src/index.ts`). -/
structure CPUUsage where
  total : ℚ
  user : ℚ
  system : ℚ
  idle : ℚ
deriving DecidableEq

/-- Per-core statistics (`perCore` entries in `src/index.ts`). -/
structure CoreStats where
  core : Nat
  load : ℚ
  loadUser : ℚ
  loadSystem : ℚ
  loadIdle : ℚ
deriving DecidableEq

/-- One CPU snapshot (`CPUStats` in `src/index.ts`). -/
structure CPUStats where
  timestamp : String
  hostname : String
  cpu : CPUInfo
  usage : CPUUsage
  perCore : List CoreStats
deriving DecidableEq

/-- Result of one send attempt (`SendResult` in `src/index.ts`); the
optional `error` field is present exactly on failures that carry detail. -/
structure SendResult where
  success : Bool
  status : String
  error : Option String
  timestamp : String
deriving DecidableEq

/-- One per-core reading of `si.currentLoad().cpus`. -/
structure CoreLoad where
  load : ℚ
  loadUser : ℚ
  loadSystem : ℚ
  loadIdle : ℚ
deriving DecidableEq

/-- The aggregate reading of `si.currentLoad()`. -/
structure CurrentLoad where
  currentLoad : ℚ
  currentLoadUser : ℚ
  currentLoadSystem : ℚ
  currentLoadIdle : ℚ
  cpus : List CoreLoad
deriving DecidableEq

/-- The reading of `si.cpu()`. -/
structure CPUInfoRaw where
  brand : String
  cores : Nat
  speed : ℚ
deriving DecidableEq

/-- One host-facility response: everything `collectCPUStats` reads from
`systeminformation`, `os.hostname()` and `new Date().toISOString()`. -/
structure HostResponse where
  currentLoad : CurrentLoad
  cpuInfo : CPUInfoRaw
  now : String
  hostname : String
deriving DecidableEq

/-- The embedding of `parseFloat(x.toFixed(2))`: round to 2 decimal
places (nearest, ties up, matching `toFixed` on the values of interest;
the tie rule is irrelevant to the 2-decimal-precision property). -/
def round2 (q : ℚ) : ℚ := ((⌊q * 100 + 1 / 2⌋ : ℤ) : ℚ) / 100

/-- A rational that carries at most two decimal digits. -/
def twoDecimals (q : ℚ) : Prop := (q * 100).den = 1

instance (q : ℚ) : Decidable (twoDecimals q) := by
  unfold twoDecimals; infer_instance

/-- The embedding of `currentLoad.cpus.map((cpu, index) => ...)` in
`collectCPUStats`: build the per-core list, numbering cores from `i`. -/
def perCoreOf : List CoreLoad → Nat → List CoreStats
  | [], _ => []
  | c :: cs, i =>
    { core := i, load := round2 c.load, loadUser := round2 c.loadUser,
      loadSystem := round2 c.loadSystem, loadIdle := round2 c.loadIdle }
      :: perCoreOf cs (i + 1)

/-- The snapshot `collectCPUStats` builds from a successful host query
(the object literal of the try block, `src/index.ts` lines 91 to 112):
every percentage goes through `parseFloat(x.toFixed(2))`. -/
def buildSnapshot (h : HostResponse) : CPUStats :=
  { timestamp := h.now
    hostname := h.hostname
    cpu := { model := h.cpuInfo.brand, cores := h.cpuInfo.cores,
             speed := h.cpuInfo.speed }
    usage := { total := round2 h.currentLoad.currentLoad,
               user := round2 h.currentLoad.currentLoadUser,
               system := round2 h.currentLoad.currentLoadSystem,
               idle := round2 h.currentLoad.currentLoadIdle }
    perCore := perCoreOf h.currentLoad.cpus 0 }

/-- The embedding of `collectCPUStats` (`src/index.ts` lines 86 to 117):
on a successful host query build the snapshot; a failing host query is
rethrown with the `Failed to collect CPU stats:` prefix. -/
def collectCPUStats : Except String HostResponse → Except String CPUStats
  | Except.error e => Except.error ("Failed to collect CPU stats: " ++ e)
  | Except.ok h => Except.ok (buildSnapshot h)

/-- One OSC argument value: float, string or integer typed. -/
inductive OSCValue where
  | f (x : ℚ)
  | s (x : String)
  | i (x : Nat)
deriving DecidableEq

/-- One OSC message: address plus single typed argument. -/
structure OSCMessage where
  address : String
  value : OSCValue
deriving DecidableEq

/-- The batch of OSC messages `sendStats` sends for one snapshot, in
source order (`src/index.ts` lines 131 to 206): four aggregate usage
messages, two info messages, one load message per `perCore` entry using
that entry's `core` field in the address, then the timestamp marker. -/
def oscMessages (stats : CPUStats) : List OSCMessage :=
  [{ address := "/cpu/usage/total", value := OSCValue.f stats.usage.total },
   { address := "/cpu/usage/user", value := OSCValue.f stats.usage.user },
   { address := "/cpu/usage/system", value := OSCValue.f stats.usage.system },
   { address := "/cpu/usage/idle", value := OSCValue.f stats.usage.idle },
   { address := "/cpu/info/model", value := OSCValue.s stats.cpu.model },
   { address := "/cpu/info/cores", value := OSCValue.i stats.cpu.cores }]
  ++ (stats.perCore.map fun c =>
       { address := "/cpu/core/" ++ toString c.core ++ "/load",
         value := OSCValue.f c.load })
  ++ [{ address := "/cpu/timestamp", value := OSCValue.s stats.timestamp }]

/-- The OSC UDP port handle: the behaviour of its `send` method, as the
outcome (normal return, or a thrown error message) of the k-th send call
of a batch. -/
structure OSCPort where
  sendOutcome : Nat → Except String Unit

/-- Issue the sends of a batch in order, numbering the calls from `k`:
the first throwing `send` aborts the rest of the batch and its error is
reported; messages before it were handed to the port. -/
def trySendAll (port : OSCPort) : List OSCMessage → Nat → List OSCMessage × Option String
  | [], _ => ([], none)
  | m :: ms, k =>
    match port.sendOutcome k with
    | Except.error e => ([], some e)
    | Except.ok _ =>
      let r := trySendAll port ms (k + 1)
      (m :: r.1, r.2)

/-- The embedding of `sendStats` (`src/index.ts` lines 124 to 223):
with no initialized port the `OSC port not initialized` error is thrown
and caught; otherwise the batch is sent and the first thrown send error
is caught.  Every outcome is a returned `SendResult`; the second
component records the messages actually handed to the port. -/
def sendStats (port : Option OSCPort) (now : String) (stats : CPUStats) :
    SendResult × List OSCMessage :=
  match port with
  | none =>
    ({ success := false, status := "ERROR",
       error := some "OSC port not initialized", timestamp := now }, [])
  | some p =>
    match trySendAll p (oscMessages stats) 0 with
    | (sent, none) =>
      ({ success := true, status := "OK", error := none, timestamp := now }, sent)
    | (sent, some e) =>
      ({ success := false, status := "ERROR", error := some e, timestamp := now }, sent)

/-- The React state owned by `App` that one monitor cycle updates
(`cpuStats`, `lastSend`, `isLoading` in `src/index.ts`). -/
structure MonitorState where
  cpuStats : Option CPUStats
  lastSend : SendResult
  isLoading : Bool
deriving DecidableEq

/-- The initial `App` state (`src/index.ts` lines 229 to 235): no
snapshot yet, `Initializing...` send status, loading. -/
def initialState (now : String) : MonitorState :=
  { cpuStats := none
    lastSend := { success := false, status := "Initializing...",
                  error := none, timestamp := now }
    isLoading := true }

/-- The embedding of one `monitor` cycle (`src/index.ts` lines 243 to
269) in the mounted state: collect, publish the snapshot, send it, and
record the send result; a `collectCPUStats` failure is caught, recorded
into `lastSend`, and the sink is not invoked.  Inputs stand for the
environment of the cycle: the module-level `oscPort`, this cycle's
host-facility behaviour, and the clock reading used for result
timestamps.  The second component is the list of OSC messages handed to
the port during the cycle. -/
def monitor (port : Option OSCPort) (host : Except String HostResponse)
    (now : String) (s : MonitorState) : MonitorState × List OSCMessage :=
  match collectCPUStats host with
  | Except.error e =>
    ({ s with
        lastSend := { success := false, status := "ERROR",
                      error := some e, timestamp := now }
        isLoading := false }, [])
  | Except.ok stats =>
    let r := sendStats port now stats
    ({ cpuStats := some stats, lastSend := r.1, isLoading := false }, r.2)

/-- Body of an HTTP response of the pull endpoint: either the
documented JSON error object or the JSON array of name/value pairs. -/
inductive HttpBody where
  | errorBody (message : String)
  | statsBody (entries : List OSCMessage)
deriving DecidableEq

/-- Modelled from the spec: the HTTP pull responder (the server enabled
by `HTTP_ENABLED`, documented in the README but not present under the
provided sources — `test-server.ts` is only a receiver for the POST
variant).  Per the spec, `GET /` answers 503 with body
`{"error": "No data available yet"}` before any cycle has completed,
and otherwise 200 with the JSON array mirroring the OSC message set of
the latest snapshot. -/
def httpRespond (store : Option CPUStats) : Nat × HttpBody :=
  match store with
  | none => (503, HttpBody.errorBody "No data available yet")
  | some stats => (200, HttpBody.statsBody (oscMessages stats))

/-- Numeric value of a list of decimal digit characters, most
significant first. -/
def digitsToNat (cs : List Char) : Nat :=
  cs.foldl (fun a c => a * 10 + (c.toNat - 48)) 0

/-- The embedding of JavaScript `parseInt(s, 10)`: skip leading spaces,
take an optional sign, read leading decimal digits; `none` stands for
`NaN` (no digits). -/
def jsParseInt (s : String) : Option Int :=
  match s.data.dropWhile (fun c => c = ' ') with
  | [] => none
  | c :: rest =>
    if c = '-' then
      match rest.takeWhile Char.isDigit with
      | [] => none
      | ds => some (-(digitsToNat ds : Int))
    else if c = '+' then
      match rest.takeWhile Char.isDigit with
      | [] => none
      | ds => some (digitsToNat ds : Int)
    else
      match (c :: rest).takeWhile Char.isDigit with
      | [] => none
      | ds => some (digitsToNat ds : Int)

/-- The embedding of the configuration boundary
`parseInt(process.env.INTERVAL_MS || '10000', 10)` (`src/index.ts` line
50): an unset or empty environment variable falls back to the string
`10000` (JavaScript `||` treats the empty string as falsy), and the
chosen string goes through `parseInt` unchanged — nothing else is
applied to the result. -/
def INTERVAL_MS (env : Option String) : Option Int :=
  jsParseInt
    (match env with
     | none => "10000"
     | some s => if s = "" then "10000" else s)

/-- The process state touched by the shutdown path: whether the
module-level `oscPort` is non-null, how many times `close()` has been
called on it, whether the interval timer was cleared, and the `App`
mounted flag. -/
structure ShutdownState where
  oscPortSome : Bool
  closeCalls : Nat
  intervalCleared : Bool
  mounted : Bool
deriving DecidableEq

/-- The embedding of the `useEffect` cleanup (`src/index.ts` lines 277
to 283), run when the `App` unmounts: clear the mounted flag, clear the
interval, and close `oscPort` if it is non-null. -/
def effectCleanup (s : ShutdownState) : ShutdownState :=
  { s with
     mounted := false
     intervalCleared := true
     closeCalls := if s.oscPortSome then s.closeCalls + 1 else s.closeCalls }

/-- The embedding of the SIGINT/SIGTERM handler `shutdown`
(`src/index.ts` lines 459 to 465): close `oscPort` if it is non-null,
then `unmount()`, which runs the effect cleanup (then `process.exit`). -/
def shutdown (s : ShutdownState) : ShutdownState :=
  effectCleanup
    (if s.oscPortSome then { s with closeCalls := s.closeCalls + 1 } else s)

/-- Start time of monitor cycle `k` (`src/index.ts` lines 271 to 275):
`monitor()` runs immediately at time 0, and `setInterval(monitor,
INTERVAL_MS)` invokes `monitor` again every `intervalMs` milliseconds,
unconditionally — the timer callback has no in-flight guard, and the
async `monitor` yields at each await, so a pending cycle does not block
the next tick. -/
def cycleStart (intervalMs k : Nat) : Nat := k * intervalMs

/-- Start of cycle k's dissemination: `sendStats` begins after
`collectCPUStats` resolves, `collectDur` milliseconds into the cycle. -/
def dissemStart (intervalMs collectDur k : Nat) : Nat :=
  cycleStart intervalMs k + collectDur

/-- End of cycle k's dissemination: `sendDur` milliseconds after it
began. -/
def dissemEnd (intervalMs collectDur sendDur k : Nat) : Nat :=
  dissemStart intervalMs collectDur k + sendDur

/-- Cycle `k` is in its Disseminating phase at time `t` (with each
cycle's collect taking `collectDur` ms and its send taking `sendDur`
ms). -/
def Disseminating (intervalMs collectDur sendDur k t : Nat) : Prop :=
  dissemStart intervalMs collectDur k ≤ t ∧
    t < dissemEnd intervalMs collectDur sendDur k

instance (intervalMs collectDur sendDur k t : Nat) :
    Decidable (Disseminating intervalMs collectDur sendDur k t) := by
  unfold Disseminating; infer_instance

/-- Length of the per-core list built by the collector: one entry per
host-reported core reading. -/
theorem perCoreOf_length (cs : List CoreLoad) (i : Nat) :
    (perCoreOf cs i).length = cs.length := by
  induction cs generalizing i with
  | nil => rfl
  | cons c cs ih => simp [perCoreOf, ih]

/-- Element j of the per-core list built starting at index i: the j-th
host reading, rounded, numbered i + j. -/
theorem perCoreOf_getElem? (cs : List CoreLoad) (i j : Nat) :
    (perCoreOf cs i)[j]? = cs[j]?.map (fun c =>
      { core := i + j, load := round2 c.load, loadUser := round2 c.loadUser,
        loadSystem := round2 c.loadSystem, loadIdle := round2 c.loadIdle }) := by
  induction cs generalizing i j with
  | nil => simp [perCoreOf]
  | cons c cs ih =>
    cases j with
    | zero => simp [perCoreOf]
    | succ j =>
      have hidx : i + (j + 1) = (i + 1) + j := by omega
      simp [perCoreOf, ih, hidx]

/-- Every entry of the per-core list is a rounded host reading. -/
theorem mem_perCoreOf (cs : List CoreLoad) (i : Nat) (c : CoreStats)
    (hc : c ∈ perCoreOf cs i) :
    ∃ cl, cl ∈ cs ∧ c.load = round2 cl.load ∧ c.loadUser = round2 cl.loadUser ∧
      c.loadSystem = round2 cl.loadSystem ∧ c.loadIdle = round2 cl.loadIdle := by
  induction cs generalizing i with
  | nil => simp [perCoreOf] at hc
  | cons cl0 cs ih =>
    rw [perCoreOf, List.mem_cons] at hc
    rcases hc with h | h
    · exact ⟨cl0, List.mem_cons_self cl0 cs, by rw [h], by rw [h], by rw [h], by rw [h]⟩
    · rcases ih (i + 1) h with ⟨cl, hm, h1, h2, h3, h4⟩
      exact ⟨cl, List.mem_cons_of_mem cl0 hm, h1, h2, h3, h4⟩

/-- Rounding to two decimals indeed leaves at most two decimals. -/
theorem round2_twoDecimals (q : ℚ) : twoDecimals (round2 q) := by
  unfold twoDecimals round2
  rw [div_mul_cancel₀ _ (by norm_num : (100 : ℚ) ≠ 0)]
  exact Rat.den_intCast _

/-- With a port whose sends all return normally, the whole batch is
handed over and no error is raised. -/
theorem trySendAll_ok (p : OSCPort) (hp : ∀ k, p.sendOutcome k = Except.ok ())
    (ms : List OSCMessage) (k : Nat) : trySendAll p ms k = (ms, none) := by
  induction ms generalizing k with
  | nil => rfl
  | cons m ms ih => simp [trySendAll, hp, ih]

/-- The load the UDP sink reports for core index i of a snapshot (zero
if the snapshot has no such core). -/
def coreLoadAt (stats : CPUStats) (i : Nat) : ℚ :=
  (stats.perCore[i]?.map CoreStats.load).getD 0

/-- A concrete 10-core snapshot matching the README example scenario
(Apple M1 Max, total 46.45, user 28.44, system 18.01, idle 53.55). -/
def exampleStats : CPUStats :=
  { timestamp := "2025-11-12T01:23:45.789Z"
    hostname := "studio-mac"
    cpu := { model := "Apple M1 Max", cores := 10, speed := 3.2 }
    usage := { total := 46.45, user := 28.44, system := 18.01, idle := 53.55 }
    perCore :=
      [⟨0, 97.09, 60, 37.09, 2.91⟩, ⟨1, 97.09, 60, 37.09, 2.91⟩,
       ⟨2, 70.36, 40, 30.36, 29.64⟩, ⟨3, 56.03, 30, 26.03, 43.97⟩,
       ⟨4, 41.09, 21, 20.09, 58.91⟩, ⟨5, 32.69, 16, 16.69, 67.31⟩,
       ⟨6, 35.28, 18, 17.28, 64.72⟩, ⟨7, 18.86, 9, 9.86, 81.14⟩,
       ⟨8, 10.11, 5, 5.11, 89.89⟩, ⟨9, 6.21, 3, 3.21, 93.79⟩] }

/-- C2: for every snapshot whose per-core list has exactly
`hardware.coreCount` entries numbered 0, 1, ... in order (the shape the
collector produces), the UDP sink's batch is exactly the fixed sequence
/cpu/usage/total, /cpu/usage/user, /cpu/usage/system, /cpu/usage/idle,
/cpu/info/model, /cpu/info/cores, then /cpu/core/i/load for
i = 0 .. coreCount - 1 in ascending order, with /cpu/timestamp last —
7 + coreCount messages in total. -/
theorem osc_message_order (stats : CPUStats)
    (h1 : stats.perCore.length = stats.cpu.cores)
    (h2 : ∀ i (h : i < stats.perCore.length), (stats.perCore[i]).core = i) :
    oscMessages stats =
      { address := "/cpu/usage/total", value := OSCValue.f stats.usage.total } ::
      { address := "/cpu/usage/user", value := OSCValue.f stats.usage.user } ::
      { address := "/cpu/usage/system", value := OSCValue.f stats.usage.system } ::
      { address := "/cpu/usage/idle", value := OSCValue.f stats.usage.idle } ::
      { address := "/cpu/info/model", value := OSCValue.s stats.cpu.model } ::
      { address := "/cpu/info/cores", value := OSCValue.i stats.cpu.cores } ::
      (((List.range stats.cpu.cores).map fun i =>
          { address := "/cpu/core/" ++ toString i ++ "/load",
            value := OSCValue.f (coreLoadAt stats i) })
        ++ [{ address := "/cpu/timestamp", value := OSCValue.s stats.timestamp }]) ∧
    (oscMessages stats).length = 7 + stats.cpu.cores ∧
    (oscMessages stats).getLast? =
      some { address := "/cpu/timestamp", value := OSCValue.s stats.timestamp } := by
  have hmap : (stats.perCore.map fun c =>
      ({ address := "/cpu/core/" ++ toString c.core ++ "/load",
         value := OSCValue.f c.load } : OSCMessage)) =
      (List.range stats.cpu.cores).map fun i =>
        { address := "/cpu/core/" ++ toString i ++ "/load",
          value := OSCValue.f (coreLoadAt stats i) } := by
    apply List.ext_getElem?
    intro n
    rw [List.getElem?_map, List.getElem?_map]
    by_cases hn : n < stats.cpu.cores
    · have hn' : n < stats.perCore.length := by omega
      rw [List.getElem?_range hn, List.getElem?_eq_getElem hn']
      have hcore := h2 n hn'
      simp [coreLoadAt, List.getElem?_eq_getElem hn', hcore]
    · have hn1 : stats.perCore.length ≤ n := by omega
      have hn2 : (List.range stats.cpu.cores).length ≤ n := by
        rw [List.length_range]; omega
      rw [List.getElem?_eq_none hn1, List.getElem?_eq_none hn2]
      rfl
  refine ⟨?_, ?_, ?_⟩
  · unfold oscMessages
    rw [hmap]
    rfl
  · simp only [oscMessages, List.length_append, List.length_map,
      List.length_cons, List.length_nil]
    omega
  · exact List.getLast?_concat _

/-- C2 witness: the hypotheses hold of the README example snapshot, and
the batch there has 7 + 10 = 17 messages. -/
theorem osc_message_order_witness :
    exampleStats.perCore.length = exampleStats.cpu.cores ∧
    (∀ i (h : i < exampleStats.perCore.length), (exampleStats.perCore[i]).core = i) ∧
    (oscMessages exampleStats).length = 7 + exampleStats.cpu.cores :=
  ⟨by decide, by decide, (osc_message_order exampleStats (by decide) (by decide)).2.1⟩

/-- C3: `sendStats` is a total function into `SendResult` — no failure
mode escapes it; every outcome is either a success result (`OK`, no
error detail) or a failure result (`ERROR`) carrying an error detail,
and the result always carries the completion timestamp. -/
theorem sendStats_never_throws (port : Option OSCPort) (now : String)
    (stats : CPUStats) :
    (sendStats port now stats).1.timestamp = now ∧
    (((sendStats port now stats).1.success = true ∧
      (sendStats port now stats).1.status = "OK" ∧
      (sendStats port now stats).1.error = none) ∨
     ((sendStats port now stats).1.success = false ∧
      (sendStats port now stats).1.status = "ERROR" ∧
      ∃ e, (sendStats port now stats).1.error = some e)) := by
  cases port with
  | none => exact ⟨rfl, Or.inr ⟨rfl, rfl, "OSC port not initialized", rfl⟩⟩
  | some p =>
    cases h : trySendAll p (oscMessages stats) 0 with
    | mk sent oe =>
      cases oe with
      | none => refine ⟨?_, Or.inl ⟨?_, ?_, ?_⟩⟩ <;> simp [sendStats, h]
      | some e =>
        refine ⟨?_, Or.inr ⟨?_, ?_, e, ?_⟩⟩ <;> simp [sendStats, h]

/-- C9: calling `sendStats` with the module-level `oscPort` still null
hands no message to the port and returns the documented failure result
(`OSC port not initialized`) instead of throwing. -/
theorem sendStats_port_not_initialized (now : String) (stats : CPUStats) :
    sendStats none now stats =
      ({ success := false, status := "ERROR",
         error := some "OSC port not initialized", timestamp := now }, []) := rfl

/-- A concrete healthy host response (2 cores), with more than two input
decimals, used to instantiate collector theorems. -/
def hrExample : HostResponse :=
  { currentLoad :=
      { currentLoad := 46.456, currentLoadUser := 28.444,
        currentLoadSystem := 18.012, currentLoadIdle := 53.544,
        cpus := [⟨97.091, 50, 47.091, 2.909⟩, ⟨6.214, 3, 3.214, 93.786⟩] }
    cpuInfo := { brand := "Apple M1 Max", cores := 2, speed := 3.2 }
    now := "2025-11-12T01:23:45.789Z"
    hostname := "studio-mac" }

/-- C6: every snapshot the collector returns has all its percentage
fields equal to the corresponding host reading rounded with
`toFixed(2)`, and every such field carries at most two decimal digits. -/
theorem collect_two_decimals (hr : HostResponse) (snap : CPUStats)
    (h : collectCPUStats (Except.ok hr) = Except.ok snap) :
    (snap.usage.total = round2 hr.currentLoad.currentLoad ∧
     snap.usage.user = round2 hr.currentLoad.currentLoadUser ∧
     snap.usage.system = round2 hr.currentLoad.currentLoadSystem ∧
     snap.usage.idle = round2 hr.currentLoad.currentLoadIdle) ∧
    (twoDecimals snap.usage.total ∧ twoDecimals snap.usage.user ∧
     twoDecimals snap.usage.system ∧ twoDecimals snap.usage.idle) ∧
    (∀ (i : Nat) (cl : CoreLoad), hr.currentLoad.cpus[i]? = some cl →
      snap.perCore[i]? = some
        { core := i, load := round2 cl.load, loadUser := round2 cl.loadUser,
          loadSystem := round2 cl.loadSystem, loadIdle := round2 cl.loadIdle }) ∧
    (∀ c ∈ snap.perCore, twoDecimals c.load ∧ twoDecimals c.loadUser ∧
      twoDecimals c.loadSystem ∧ twoDecimals c.loadIdle) := by
  have hsnap : buildSnapshot hr = snap := Except.ok.inj h
  subst hsnap
  refine ⟨⟨rfl, rfl, rfl, rfl⟩,
    ⟨round2_twoDecimals _, round2_twoDecimals _, round2_twoDecimals _,
     round2_twoDecimals _⟩, ?_, ?_⟩
  · intro i cl hcl
    rw [show (buildSnapshot hr).perCore = perCoreOf hr.currentLoad.cpus 0 from rfl,
      perCoreOf_getElem?, hcl]
    simp
  · intro c hc
    rcases mem_perCoreOf hr.currentLoad.cpus 0 c hc with ⟨cl, _, e1, e2, e3, e4⟩
    exact ⟨e1 ▸ round2_twoDecimals _, e2 ▸ round2_twoDecimals _,
      e3 ▸ round2_twoDecimals _, e4 ▸ round2_twoDecimals _⟩

/-- C6 witness: concrete collection from `hrExample`, with the
collection hypothesis discharged definitionally. -/
theorem collect_two_decimals_witness :
    collectCPUStats (Except.ok hrExample) = Except.ok (buildSnapshot hrExample) ∧
    (buildSnapshot hrExample).usage.total = round2 hrExample.currentLoad.currentLoad ∧
    twoDecimals (buildSnapshot hrExample).usage.total :=
  ⟨rfl,
   (collect_two_decimals hrExample (buildSnapshot hrExample) rfl).1.1,
   (collect_two_decimals hrExample (buildSnapshot hrExample) rfl).2.1.1⟩

/-- A host response whose two sub-queries disagree: `si.cpu()` reports
4 cores while `si.currentLoad()` reports 2 per-core readings; the
aggregate user percentage is negative (malformed). -/
def hrMismatch : HostResponse :=
  { currentLoad :=
      { currentLoad := 10, currentLoadUser := -5,
        currentLoadSystem := 4, currentLoadIdle := 90,
        cpus := [⟨10, 6, 4, 90⟩, ⟨12, 7, 5, 88⟩] }
    cpuInfo := { brand := "TestCPU", cores := 4, speed := 3 }
    now := "t0"
    hostname := "h" }

/-- C4 counterexample: on a host response whose per-core list length (2)
differs from the reported core count (4) and whose user percentage is
negative, `collectCPUStats` does not fail — it returns a snapshot, and
that snapshot has `perCore` length 2 while `cpu.cores` is 4, with a
negative user percentage. -/
theorem collect_no_validation_cex :
    collectCPUStats (Except.ok hrMismatch) = Except.ok (buildSnapshot hrMismatch) ∧
    (buildSnapshot hrMismatch).perCore.length = 2 ∧
    (buildSnapshot hrMismatch).cpu.cores = 4 ∧
    (buildSnapshot hrMismatch).perCore.length ≠ (buildSnapshot hrMismatch).cpu.cores ∧
    (buildSnapshot hrMismatch).usage.user < 0 := by
  refine ⟨rfl, rfl, rfl, by decide, ?_⟩
  show round2 (-5) < 0
  norm_num [round2]

/-- C4 (amended): `collectCPUStats` performs no consistency validation.
It fails exactly when the host query itself fails (wrapping the error);
on success it returns a snapshot whose `perCore` length always equals
the host's per-core reading count — which need not equal the reported
core count — and whose core count is copied from `si.cpu()` as is. -/
theorem collect_shape (hr : HostResponse) (e : String) :
    collectCPUStats (Except.error e) =
      Except.error ("Failed to collect CPU stats: " ++ e) ∧
    collectCPUStats (Except.ok hr) = Except.ok (buildSnapshot hr) ∧
    (buildSnapshot hr).perCore.length = hr.currentLoad.cpus.length ∧
    (buildSnapshot hr).cpu.cores = hr.cpuInfo.cores :=
  ⟨rfl, rfl, perCoreOf_length hr.currentLoad.cpus 0, rfl⟩

/-- A port whose send calls all return normally. -/
def portOk : OSCPort := { sendOutcome := fun _ => Except.ok () }

/-- C5: a cycle whose collection fails records the collection error as
the cycle's `lastSend` status, hands no message to any sink, and leaves
the published snapshot untouched; the monitor then simply returns, and
the next scheduled cycle — here run against a now-healthy host and
port — collects and sends successfully.  The fixed interval is the only
retry mechanism: nothing else in `monitor` retries. -/
theorem collect_error_cycle (port : Option OSCPort) (e now now2 : String)
    (s : MonitorState) (p : OSCPort)
    (hp : ∀ k, p.sendOutcome k = Except.ok ()) (hr : HostResponse) :
    (monitor port (Except.error e) now s).2 = [] ∧
    (monitor port (Except.error e) now s).1.lastSend =
      { success := false, status := "ERROR",
        error := some ("Failed to collect CPU stats: " ++ e), timestamp := now } ∧
    (monitor port (Except.error e) now s).1.cpuStats = s.cpuStats ∧
    (monitor (some p) (Except.ok hr) now2
        ((monitor port (Except.error e) now s).1)).1.lastSend.success = true := by
  refine ⟨rfl, rfl, rfl, ?_⟩
  show (sendStats (some p) now2 (buildSnapshot hr)).1.success = true
  rw [show sendStats (some p) now2 (buildSnapshot hr) =
      (match trySendAll p (oscMessages (buildSnapshot hr)) 0 with
       | (sent, none) =>
         ({ success := true, status := "OK", error := none, timestamp := now2 }, sent)
       | (sent, some err) =>
         ({ success := false, status := "ERROR", error := some err,
            timestamp := now2 }, sent)) from rfl,
    trySendAll_ok p hp]

/-- C5 witness: a concrete failed cycle followed by a healthy cycle. -/
theorem collect_error_cycle_witness :
    (monitor (some portOk) (Except.error "EACCES") "t1" (initialState "t0")).2 = [] ∧
    (monitor (some portOk) (Except.ok hrExample) "t2"
        ((monitor (some portOk) (Except.error "EACCES") "t1"
          (initialState "t0")).1)).1.lastSend.success = true :=
  ⟨(collect_error_cycle (some portOk) "EACCES" "t1" "t2" (initialState "t0")
      portOk (fun _ => rfl) hrExample).1,
   (collect_error_cycle (some portOk) "EACCES" "t1" "t2" (initialState "t0")
      portOk (fun _ => rfl) hrExample).2.2.2⟩

/-- C7: before any cycle has completed the store behind the pull
endpoint is empty (`App` starts with `cpuStats = null`), and `GET /`
answers 503 with the documented error body; after a completed cycle the
store holds the collected snapshot and `GET /` answers 200 with the
array mirroring exactly that snapshot's UDP message set. -/
theorem http_pull_endpoint (now0 now : String) (port : Option OSCPort)
    (hr : HostResponse) :
    httpRespond (initialState now0).cpuStats =
      (503, HttpBody.errorBody "No data available yet") ∧
    (monitor port (Except.ok hr) now (initialState now0)).1.cpuStats =
      some (buildSnapshot hr) ∧
    httpRespond (monitor port (Except.ok hr) now (initialState now0)).1.cpuStats =
      (200, HttpBody.statsBody (oscMessages (buildSnapshot hr))) :=
  ⟨rfl, rfl, rfl⟩

/-- C8 counterexample: the configuration boundary enforces no minimum —
a configured `INTERVAL_MS` of `0` yields the interval 0 (below 1), and
`-5` yields a negative interval. -/
theorem interval_min_cex :
    INTERVAL_MS (some "0") = some 0 ∧ ¬((1 : Int) ≤ 0) ∧
    INTERVAL_MS (some "-5") = some (-5) ∧ ((-5 : Int) < 0) := by decide

/-- C8 (amended): the interval defaults to 10000 ms when `INTERVAL_MS`
is unset or empty; a set value is parsed and used as is, with no
minimum enforced, so zero and negative configured intervals pass
through to `setInterval` unchanged. -/
theorem interval_default :
    INTERVAL_MS none = some 10000 ∧
    INTERVAL_MS (some "") = some 10000 ∧
    INTERVAL_MS (some "5000") = some 5000 ∧
    INTERVAL_MS (some "0") = some 0 ∧
    INTERVAL_MS (some "-250") = some (-250) := by decide

/-- C10: when the OSC port has been initialized, the shutdown path
closes it twice — once in the signal handler and once more in the
unmount cleanup the handler triggers — never exactly once. -/
theorem shutdown_double_close (s : ShutdownState) (h : s.oscPortSome = true) :
    (shutdown s).closeCalls = s.closeCalls + 2 ∧
    (shutdown s).closeCalls ≠ s.closeCalls + 1 ∧
    (shutdown s).mounted = false ∧ (shutdown s).intervalCleared = true := by
  unfold shutdown effectCleanup
  rw [h]
  simp

/-- C10 witness: shutting down from a freshly initialized port state
calls `close()` twice. -/
theorem shutdown_double_close_witness :
    (ShutdownState.mk true 0 false true).oscPortSome = true ∧
    (shutdown (ShutdownState.mk true 0 false true)).closeCalls = 0 + 2 :=
  ⟨rfl, (shutdown_double_close (ShutdownState.mk true 0 false true) rfl).1⟩

/-- C1 counterexample: with interval 10 ms, collect duration 1 ms and a
slow sink of 25 ms (exceeding the interval), cycles 0 and 1 are both in
their Disseminating phase at time 11 — the tick at time 10 did start a
new cycle while the previous one was in flight, and the two
Disseminating phases overlap. -/
theorem dissem_overlap_cex :
    (0 : Nat) ≠ 1 ∧ Disseminating 10 1 25 0 11 ∧ Disseminating 10 1 25 1 11 := by
  decide

/-- C1 (amended): every timer tick starts a new monitor cycle
unconditionally — `setInterval` fires every `intervalMs` regardless of
the previous cycle — and whenever a cycle's dissemination lasts longer
than the interval, its Disseminating phase overlaps the next cycle's. -/
theorem scheduler_no_skip_overlap (intervalMs collectDur sendDur k : Nat)
    (h : intervalMs < sendDur) :
    cycleStart intervalMs (k + 1) = (k + 1) * intervalMs ∧
    Disseminating intervalMs collectDur sendDur k
      (cycleStart intervalMs (k + 1) + collectDur) ∧
    Disseminating intervalMs collectDur sendDur (k + 1)
      (cycleStart intervalMs (k + 1) + collectDur) := by
  have hm : (k + 1) * intervalMs = k * intervalMs + intervalMs := by ring
  unfold Disseminating dissemEnd dissemStart cycleStart
  rw [hm]
  omega

/-- C1 amended witness: interval 10 ms, slow sink 25 ms, cycles 0 and 1. -/
theorem scheduler_no_skip_overlap_witness :
    (10 : Nat) < 25 ∧
    Disseminating 10 1 25 0 (cycleStart 10 1 + 1) ∧
    Disseminating 10 1 25 1 (cycleStart 10 1 + 1) :=
  ⟨by decide, (scheduler_no_skip_overlap 10 1 25 0 (by decide)).2.1,
   (scheduler_no_skip_overlap 10 1 25 0 (by decide)).2.2⟩

end SystemOSC
